import Mathlib

/-!
Shallow embedding of the BioTek EL406 plate-washer driver
(`pylabrobot/plate_washing/biotek/el406/`): protocol framing, field
encoders, plate-geometry defaults, step-command validation, payload
builders, and the batch/session lifecycle, together with theorems about
the properties the specification states for them.

Bytes are modelled as `Nat` (each produced byte is reduced `% 256`),
Python ints as `Int`, Python floats as `ℚ`, and Python functions that can
raise `ValueError` as `Except Unit`-valued functions (`.error ()` models
the raise; error messages are dropped).
-/

-- Equality of fallible results is decidable (used to evaluate the
-- embedding at concrete inputs).
deriving instance DecidableEq for Except

namespace EL406

/-- `check p` models a Python `if not p: raise ValueError(...)` guard. -/
def check (p : Prop) [Decidable p] : Except Unit Unit :=
  if p then .ok () else .error ()

/-- Python `int(q)` on a float: truncation toward zero (`Rat.floor` is
the kernel-evaluable floor; it agrees with `⌊q⌋`). -/
def pyInt (q : ℚ) : Int :=
  if q < 0 then -((-q).floor) else q.floor

/-- Python `round(q)`: round half to even (banker's rounding). -/
def pyRound (q : ℚ) : Int :=
  if q - q.floor < 1/2 then q.floor
  else if q - q.floor > 1/2 then q.floor + 1
  else if q.floor % 2 = 0 then q.floor else q.floor + 1

/-- Python `a % b` for `b > 0` (sign of result follows `b`). -/
def pyMod (a b : ℚ) : ℚ :=
  a - b * (a / b).floor

/-- `Rat.floor` is the floor of the `FloorRing` instance. -/
theorem rat_floor_eq_floor (q : ℚ) : q.floor = ⌊q⌋ := by
  rw [Rat.floor_def', ← Rat.floor_def]

/-- Modelled from the spec: the byte `Writer` of `pylabrobot.io.binary` is
not in the sources; per the spec, multi-byte numeric fields are
little-endian and signed offsets are two's-complement unsigned bytes.
`u8` emits one byte, the value reduced mod 2^8. -/
def u8 (v : Nat) : List Nat :=
  [v % 256]

/-- Modelled from the spec: little-endian 16-bit field (low byte first). -/
def u16 (v : Nat) : List Nat :=
  [v % 65536 % 256, v % 65536 / 256]

/-- Modelled from the spec: one byte of a Python int, two's-complement
reduction mod 2^8 (`Int.emod` is nonnegative for a positive modulus). -/
def i8 (v : Int) : List Nat :=
  [(v % 256).toNat]

/-- Modelled from the spec: little-endian 16-bit field of a Python int,
two's-complement reduction mod 2^16. -/
def i16 (v : Int) : List Nat :=
  [(v % 65536 % 256).toNat, (v % 65536 / 256).toNat]

/-- Modelled from the spec: `EL406PlateType` (`enums.py` is not in the
sources). The five plate formats of the spec data model; wire values are
the ones asserted by the repository's setup tests (1536→0, 384→1,
384-PCR→2, 96→4, 1536-flange→14). -/
inductive EL406PlateType where
  | PLATE_1536_WELL
  | PLATE_384_WELL
  | PLATE_384_PCR
  | PLATE_96_WELL
  | PLATE_1536_FLANGE
deriving DecidableEq, Repr

/-- Wire byte of a plate type (`EL406PlateType.value`). -/
def EL406PlateType.value : EL406PlateType → Nat
  | .PLATE_1536_WELL => 0
  | .PLATE_384_WELL => 1
  | .PLATE_384_PCR => 2
  | .PLATE_96_WELL => 4
  | .PLATE_1536_FLANGE => 14

/-- One record of `PLATE_TYPE_DEFAULTS` (`helpers.py`). -/
structure PlateDefaults where
  dispenser_height : Nat
  dispense_z : Nat
  aspirate_z : Nat
  rows : Nat
  cols : Nat
deriving DecidableEq, Repr

/-- `PLATE_TYPE_DEFAULTS` from `helpers.py` (plate-type default table). -/
def PLATE_TYPE_DEFAULTS : EL406PlateType → PlateDefaults
  | .PLATE_1536_WELL =>
      { dispenser_height := 250, dispense_z := 94, aspirate_z := 42, rows := 48, cols := 32 }
  | .PLATE_384_WELL =>
      { dispenser_height := 333, dispense_z := 120, aspirate_z := 22, rows := 24, cols := 16 }
  | .PLATE_384_PCR =>
      { dispenser_height := 230, dispense_z := 83, aspirate_z := 2, rows := 24, cols := 16 }
  | .PLATE_96_WELL =>
      { dispenser_height := 336, dispense_z := 121, aspirate_z := 29, rows := 12, cols := 8 }
  | .PLATE_1536_FLANGE =>
      { dispenser_height := 196, dispense_z := 93, aspirate_z := 13, rows := 48, cols := 32 }

/-- Result record of `get_plate_type_wash_defaults` (both versions). -/
structure WashDefaults where
  dispense_volume : ℚ
  dispense_z : Nat
  aspirate_z : Nat
deriving DecidableEq, Repr

namespace Helpers

/-- `get_plate_type_wash_defaults` from `helpers.py`: volume is 300 µL if
`rows * cols == 96`, else 100 µL. -/
def get_plate_type_wash_defaults (plate_type : EL406PlateType) : WashDefaults :=
  let pt := PLATE_TYPE_DEFAULTS plate_type
  { dispense_volume := if pt.rows * pt.cols = 96 then 300 else 100,
    dispense_z := pt.dispense_z,
    aspirate_z := pt.aspirate_z }

end Helpers

namespace Steps

/-- `get_plate_type_wash_defaults` from `steps/_manifold.py`: volume is
300 µL if `pt["cols"] == 12`, else 100 µL. -/
def get_plate_type_wash_defaults (plate_type : EL406PlateType) : WashDefaults :=
  let pt := PLATE_TYPE_DEFAULTS plate_type
  { dispense_volume := if pt.cols = 12 then 300 else 100,
    dispense_z := pt.dispense_z,
    aspirate_z := pt.aspirate_z }

end Steps

/-- `build_framed_message` from `protocol.py`: 9-byte header prefix
(start marker, version marker, command LE, constant, reserved, data
length LE), then the 16-bit checksum `(0xFFFF - sum + 1) & 0xFFFF` over
the prefix plus the data bytes, then the data. -/
def build_framed_message (command : Nat) (data : List Nat) : List Nat :=
  let header_prefix :=
    u8 0x01 ++ u8 0x02 ++ u16 command ++ u8 0x01 ++ u16 0x0000 ++ u16 data.length
  let checksum_sum := header_prefix.sum + data.sum
  let checksum := (((0xFFFF : Int) - checksum_sum + 1) % 0x10000).toNat
  header_prefix ++ u16 checksum ++ data

/-- The inner loop of `encode_column_mask` / `encode_well_mask`:
`mask[index // 8] |= 1 << (index % 8)` on the 6-byte mask array. -/
def mask_set_bit (mask : List Nat) (index : Nat) : List Nat :=
  mask.set (index / 8) (mask.getD (index / 8) 0 ||| (1 <<< (index % 8)))

/-- `encode_column_mask` from `protocol.py` (identical in body to
`encode_well_mask` from `helpers.py`): `None` → six `0xFF` bytes, a list
of 0-based indices → 48-bit little-endian mask over 6 bytes after
rejecting any index outside 0–47. -/
def encode_column_mask (columns : Option (List Int)) : Except Unit (List Nat) :=
  match columns with
  | none => .ok [0xFF, 0xFF, 0xFF, 0xFF, 0xFF, 0xFF]
  | some columns =>
    if columns.all (fun col => decide (0 ≤ col ∧ col ≤ 47)) then
      .ok (columns.foldl (fun mask col => mask_set_bit mask col.toNat) (List.replicate 6 0))
    else
      .error ()

/-- The inner loop of `encode_quadrant_mask_inverted`:
`mask &= ~(1 << (row - 1))` on a nonnegative Python int, i.e. clear bit
`row - 1`. -/
def mask_clear_bit (mask : Nat) (bit : Nat) : Nat :=
  if mask.testBit bit then mask - (1 <<< bit) else mask

/-- `encode_quadrant_mask_inverted` from `helpers.py`: `None` → `0x00`
(all selected in the inverted encoding); otherwise start from
`(1 <<< num_row_groups) - 1` (all deselected), reject any row outside
`1..num_row_groups`, clear bit `row - 1` for each selected row, and
reduce `& 0xFF`. -/
def encode_quadrant_mask_inverted (rows : Option (List Int)) (num_row_groups : Nat) :
    Except Unit Nat :=
  match rows with
  | none => .ok 0x00
  | some rows =>
    if rows.all (fun row => decide (1 ≤ row ∧ row ≤ (num_row_groups : Int))) then
      let max_mask := (1 <<< num_row_groups) - 1
      .ok ((rows.foldl (fun mask row => mask_clear_bit mask (row.toNat - 1)) max_mask) &&& 0xFF)
    else
      .error ()

/-! ### Batch/session lifecycle (`backend.py`, `BioTekEL406Backend.batch`)

The backend's observable batch behaviour: a `_in_batch` flag plus the
sequence of device interactions. `start_batch` (pre-batch frames +
START_STEP marker) and `cleanup_after_protocol` (pump off + home motors +
end-of-batch marker) are each modelled as one atomic trace event, since
the claims count whole sequences. Exceptions are modelled by a success
flag threaded through execution. -/

/-- Observable device interactions of the batch lifecycle. -/
inductive BatchEvent where
  | startSeq
  | stepSent
  | cleanupSeq
deriving DecidableEq, Repr

/-- The backend state the batch lifecycle touches: the `_in_batch` flag
and the trace of issued sequences. -/
structure BackendState where
  in_batch : Bool
  trace : List BatchEvent
deriving DecidableEq, Repr

/-- Client programs against one backend: a raw step send (which succeeds
or raises, `ok = false` modelling e.g. a timeout error), sequencing, and
the `async with backend.batch(...)` scope. -/
inductive Prog where
  | send (ok : Bool)
  | seq (p q : Prog)
  | batchScope (body : Prog)

/-- Execution of a program, returning the final state and `true` iff no
exception propagated. `batchScope` mirrors `BioTekEL406Backend.batch`:
if `_in_batch` is set, the scope is a no-op passthrough; otherwise it
sets the flag, issues the start sequence, runs the body, and in a
`finally` issues the cleanup sequence and clears the flag, re-raising
the body's exception if there was one. -/
def exec : Prog → BackendState → BackendState × Bool
  | .send ok, s => ({ s with trace := s.trace ++ [.stepSent] }, ok)
  | .seq p q, s =>
    let r := exec p s
    if r.2 then exec q r.1 else r
  | .batchScope body, s =>
    if s.in_batch then
      exec body s
    else
      let entered : BackendState := { s with in_batch := true, trace := s.trace ++ [.startSeq] }
      let r := exec body entered
      ({ r.1 with in_batch := false, trace := r.1.trace ++ [.cleanupSeq] }, r.2)

/-- A step command auto-wraps itself in a one-shot batch
(`async with self.batch(...): await self._send_step_command(...)`). -/
def stepCmd (ok : Bool) : Prog :=
  Prog.batchScope (Prog.send ok)

/-! ### Manifold step validation and payload builders (`steps/_manifold.py`)

Buffers are single characters (the Python `Literal["A","B","C","D"]`
strings), intensities and wash formats are strings, volumes and
durations given in PLR units are rationals (Python floats), and the
remaining integer parameters are `Int`. -/

namespace Steps

/-- `validate_buffer` (module level in `_manifold.py`):
`buffer.upper()` must be one of A, B, C, D. -/
def validate_buffer (buffer : Char) : Except Unit Unit :=
  check (buffer.toUpper ∈ ['A', 'B', 'C', 'D'])

/-- `validate_flow_rate` (module level in `_manifold.py`): range 1–9. -/
def validate_flow_rate (flow_rate : Int) : Except Unit Unit :=
  check (1 ≤ flow_rate ∧ flow_rate ≤ 9)

/-- `validate_cycles` (module level in `_manifold.py`): range 1–250. -/
def validate_cycles (cycles : Int) : Except Unit Unit :=
  check (1 ≤ cycles ∧ cycles ≤ 250)

/-- `validate_delay_ms` (module level in `_manifold.py`): 0–65535. -/
def validate_delay_ms (delay_ms : Int) : Except Unit Unit :=
  check (0 ≤ delay_ms ∧ delay_ms ≤ 65535)

/-- `validate_travel_rate` (module level in `_manifold.py`): 1–9. -/
def validate_travel_rate (rate : Int) : Except Unit Unit :=
  check (1 ≤ rate ∧ rate ≤ 9)

/-- `validate_intensity` from `helpers.py` (re-exported through
`steps/_shake.py`): membership in `VALID_INTENSITIES`. -/
def validate_intensity (intensity : String) : Except Unit Unit :=
  check (intensity ∈ ["Slow", "Medium", "Fast", "Variable"])

/-- Modelled from the spec: `INTENSITY_TO_BYTE.get(intensity, 0x03)`
(the table itself lives in code outside the sources); the spec and the
shake builder docstring fix Variable=0x01, Slow=0x02, Medium=0x03,
Fast=0x04, with 0x03 as the fallback. -/
def intensity_to_byte_get (intensity : String) : Nat :=
  if intensity = "Variable" then 0x01
  else if intensity = "Slow" then 0x02
  else if intensity = "Medium" then 0x03
  else if intensity = "Fast" then 0x04
  else 0x03

/-- `EL406ManifoldStepsMixin._validate_manifold_xy`:
X in -60..60, Y in -40..40. -/
def validate_manifold_xy (x y : Int) : Except Unit Unit := do
  check (-60 ≤ x ∧ x ≤ 60)
  check (-40 ≤ y ∧ y ≤ 40)

/-- `EL406ManifoldStepsMixin._validate_dispense_extras`: pre-dispense
volume 0 (disabled) or 25–3000, pre-dispense flow rate 3–11, vacuum
delay volume 0–3000. -/
def validate_dispense_extras (pre_dispense_volume : ℚ) (pre_dispense_flow_rate : Int)
    (vacuum_delay_volume : ℚ) : Except Unit Unit := do
  check (pre_dispense_volume = 0 ∨ (25 ≤ pre_dispense_volume ∧ pre_dispense_volume ≤ 3000))
  check (3 ≤ pre_dispense_flow_rate ∧ pre_dispense_flow_rate ≤ 11)
  check (0 ≤ vacuum_delay_volume ∧ vacuum_delay_volume ≤ 3000)

/-- `EL406ManifoldStepsMixin._validate_dispense_params`: resolves the
plate-type default Z when `offset_z` is `None`, then validates volume,
buffer, flow rate (1–11, rates ≤ 2 requiring `vacuum_delay_volume > 0`),
offsets, and the pre-dispense/vacuum extras; returns the resolved
`offset_z`. -/
def validate_dispense_params (plate_type : EL406PlateType) (volume : ℚ) (buffer : Char)
    (flow_rate : Int) (offset_x offset_y : Int) (offset_z : Option Int)
    (pre_dispense_volume : ℚ) (pre_dispense_flow_rate : Int) (vacuum_delay_volume : ℚ) :
    Except Unit Int := do
  let offset_z := offset_z.getD ((get_plate_type_wash_defaults plate_type).dispense_z : Int)
  check (25 ≤ volume ∧ volume ≤ 3000)
  validate_buffer buffer
  check (1 ≤ flow_rate ∧ flow_rate ≤ 11)
  check (¬(flow_rate ≤ 2 ∧ vacuum_delay_volume ≤ 0))
  validate_manifold_xy offset_x offset_y
  check (1 ≤ offset_z ∧ offset_z ≤ 210)
  validate_dispense_extras pre_dispense_volume pre_dispense_flow_rate vacuum_delay_volume
  pure offset_z

/-- `EL406ManifoldStepsMixin._resolve_wash_defaults`: fill the omitted
wash parameters from the plate-type wash defaults (the `_manifold.py`
resolver). -/
def resolve_wash_defaults (plate_type : EL406PlateType) (dispense_volume : Option ℚ)
    (dispense_z aspirate_z secondary_z final_secondary_z : Option Int) :
    ℚ × Int × Int × Int × Int :=
  let pt_defaults := get_plate_type_wash_defaults plate_type
  (dispense_volume.getD pt_defaults.dispense_volume,
   dispense_z.getD (pt_defaults.dispense_z : Int),
   aspirate_z.getD (pt_defaults.aspirate_z : Int),
   secondary_z.getD (pt_defaults.aspirate_z : Int),
   final_secondary_z.getD (pt_defaults.aspirate_z : Int))

/-- `EL406ManifoldStepsMixin._validate_wash_core_params`. -/
def validate_wash_core_params (cycles : Int) (buffer : Char) (dispense_volume : ℚ)
    (dispense_flow_rate dispense_x dispense_y aspirate_travel_rate aspirate_x aspirate_y
     pre_dispense_flow_rate aspirate_delay_ms : Int) (wash_format : String)
    (sector_mask : Int) : Except Unit Unit := do
  validate_cycles cycles
  check (0 < dispense_volume)
  validate_buffer buffer
  validate_flow_rate dispense_flow_rate
  validate_manifold_xy dispense_x dispense_y
  validate_travel_rate aspirate_travel_rate
  validate_manifold_xy aspirate_x aspirate_y
  check (wash_format = "Plate" ∨ wash_format = "Sector")
  check (0 ≤ sector_mask ∧ sector_mask ≤ 0xFFFF)
  validate_flow_rate pre_dispense_flow_rate
  validate_delay_ms aspirate_delay_ms

/-- `EL406ManifoldStepsMixin._validate_wash_final_and_extras`. -/
def validate_wash_final_and_extras (final_aspirate_x final_aspirate_y
    final_aspirate_delay_ms : Int) (pre_dispense_volume vacuum_delay_volume : ℚ)
    (soak_duration shake_duration : Int) (shake_intensity : String) : Except Unit Unit := do
  validate_manifold_xy final_aspirate_x final_aspirate_y
  validate_delay_ms final_aspirate_delay_ms
  check (pre_dispense_volume = 0 ∨ (25 ≤ pre_dispense_volume ∧ pre_dispense_volume ≤ 3000))
  check (0 ≤ vacuum_delay_volume ∧ vacuum_delay_volume ≤ 3000)
  check (0 ≤ soak_duration ∧ soak_duration ≤ 3599)
  check (0 ≤ shake_duration ∧ shake_duration ≤ 3599)
  validate_intensity shake_intensity

/-- `EL406ManifoldStepsMixin._validate_wash_secondary_aspirates`. -/
def validate_wash_secondary_aspirates (secondary_aspirate : Bool) (secondary_x secondary_y : Int)
    (final_secondary_aspirate : Bool) (final_secondary_x final_secondary_y : Int) :
    Except Unit Unit := do
  if secondary_aspirate then validate_manifold_xy secondary_x secondary_y else pure ()
  if final_secondary_aspirate then validate_manifold_xy final_secondary_x final_secondary_y
  else pure ()

/-- `EL406ManifoldStepsMixin._validate_wash_optional_features`. -/
def validate_wash_optional_features (bottom_wash : Bool) (bottom_wash_volume : ℚ)
    (bottom_wash_flow_rate : Int) (pre_dispense_between_cycles_volume : ℚ)
    (pre_dispense_between_cycles_flow_rate : Int) : Except Unit Unit := do
  if bottom_wash then do
    check (25 ≤ bottom_wash_volume ∧ bottom_wash_volume ≤ 3000)
    validate_flow_rate bottom_wash_flow_rate
  else pure ()
  if pre_dispense_between_cycles_volume ≠ 0 then do
    check (25 ≤ pre_dispense_between_cycles_volume ∧ pre_dispense_between_cycles_volume ≤ 3000)
    validate_flow_rate pre_dispense_between_cycles_flow_rate
  else pure ()

/-- The keyword parameters of `manifold_wash`, with their Python default
values. -/
structure WashParams where
  cycles : Int := 3
  buffer : Char := 'A'
  dispense_volume : Option ℚ := none
  dispense_flow_rate : Int := 7
  dispense_x : Int := 0
  dispense_y : Int := 0
  dispense_z : Option Int := none
  aspirate_travel_rate : Int := 3
  aspirate_z : Option Int := none
  pre_dispense_flow_rate : Int := 9
  aspirate_delay : ℚ := 0
  aspirate_x : Int := 0
  aspirate_y : Int := 0
  final_aspirate : Bool := true
  final_aspirate_z : Option Int := none
  final_aspirate_x : Int := 0
  final_aspirate_y : Int := 0
  final_aspirate_delay : ℚ := 0
  pre_dispense_volume : ℚ := 0
  vacuum_delay_volume : ℚ := 0
  soak_duration : Int := 0
  shake_duration : Int := 0
  shake_intensity : String := "Medium"
  secondary_aspirate : Bool := false
  secondary_z : Option Int := none
  secondary_x : Int := 0
  secondary_y : Int := 0
  final_secondary_aspirate : Bool := false
  final_secondary_z : Option Int := none
  final_secondary_x : Int := 0
  final_secondary_y : Int := 0
  bottom_wash : Bool := false
  bottom_wash_volume : ℚ := 0
  bottom_wash_flow_rate : Int := 5
  pre_dispense_between_cycles_volume : ℚ := 0
  pre_dispense_between_cycles_flow_rate : Int := 9
  wash_format : String := "Plate"
  sectors : Option (List Int) := none
  move_home_first : Bool := false

/-- `EL406ManifoldStepsMixin._validate_wash_params`: resolve plate-type
defaults, then run the four validation groups in source order; returns
the resolved `(dispense_volume, dispense_z, aspirate_z, secondary_z,
final_secondary_z)`. -/
def validate_wash_params (plate_type : EL406PlateType) (p : WashParams)
    (aspirate_delay_ms final_aspirate_delay_ms sector_mask : Int) :
    Except Unit (ℚ × Int × Int × Int × Int) := do
  let resolved := resolve_wash_defaults plate_type p.dispense_volume p.dispense_z
    p.aspirate_z p.secondary_z p.final_secondary_z
  validate_wash_core_params p.cycles p.buffer resolved.1 p.dispense_flow_rate
    p.dispense_x p.dispense_y p.aspirate_travel_rate p.aspirate_x p.aspirate_y
    p.pre_dispense_flow_rate aspirate_delay_ms p.wash_format sector_mask
  validate_wash_final_and_extras p.final_aspirate_x p.final_aspirate_y
    final_aspirate_delay_ms p.pre_dispense_volume p.vacuum_delay_volume
    p.soak_duration p.shake_duration p.shake_intensity
  validate_wash_secondary_aspirates p.secondary_aspirate p.secondary_x p.secondary_y
    p.final_secondary_aspirate p.final_secondary_x p.final_secondary_y
  validate_wash_optional_features p.bottom_wash p.bottom_wash_volume
    p.bottom_wash_flow_rate p.pre_dispense_between_cycles_volume
    p.pre_dispense_between_cycles_flow_rate
  pure resolved

/-- The keyword parameters of `_build_wash_composite_command` (the wash
signature with delays already converted to milliseconds and the sector
list already converted to a bitmask). -/
structure WashBuildArgs where
  cycles : Int := 3
  buffer : Char := 'A'
  dispense_volume : Option ℚ := none
  dispense_flow_rate : Int := 7
  dispense_x : Int := 0
  dispense_y : Int := 0
  dispense_z : Option Int := none
  aspirate_travel_rate : Int := 3
  aspirate_z : Option Int := none
  pre_dispense_flow_rate : Int := 9
  aspirate_delay_ms : Int := 0
  aspirate_x : Int := 0
  aspirate_y : Int := 0
  final_aspirate : Bool := true
  final_aspirate_z : Option Int := none
  final_aspirate_x : Int := 0
  final_aspirate_y : Int := 0
  final_aspirate_delay_ms : Int := 0
  pre_dispense_volume : ℚ := 0
  vacuum_delay_volume : ℚ := 0
  soak_duration : Int := 0
  shake_duration : Int := 0
  shake_intensity : String := "Medium"
  secondary_aspirate : Bool := false
  secondary_z : Option Int := none
  secondary_x : Int := 0
  secondary_y : Int := 0
  final_secondary_aspirate : Bool := false
  final_secondary_z : Option Int := none
  final_secondary_x : Int := 0
  final_secondary_y : Int := 0
  bottom_wash : Bool := false
  bottom_wash_volume : ℚ := 0
  bottom_wash_flow_rate : Int := 5
  pre_dispense_between_cycles_volume : ℚ := 0
  pre_dispense_between_cycles_flow_rate : Int := 9
  wash_format : String := "Plate"
  sector_mask : Int := 0x0F
  move_home_first : Bool := false

/-- `EL406ManifoldStepsMixin._build_wash_composite_command`: the 102-byte
MANIFOLD_WASH (0xA4) payload, header(7) + dispense1(22) +
final_aspirate(20) + primary_aspirate(19) + dispense2(19) +
shake_soak(15), each writer call mirrored in source order. -/
def build_wash_composite_command (plate_type : EL406PlateType) (a : WashBuildArgs) :
    List Nat :=
  let resolved := resolve_wash_defaults plate_type a.dispense_volume a.dispense_z
    a.aspirate_z a.secondary_z a.final_secondary_z
  let dispense_volume := resolved.1
  let dispense_z := resolved.2.1
  let aspirate_z := resolved.2.2.1
  let secondary_z := resolved.2.2.2.1
  let final_secondary_z := resolved.2.2.2.2
  let buffer_char : Nat := a.buffer.toUpper.toNat
  let disp_vol : Int := pyInt dispense_volume
  let final_asp_z : Int := a.final_aspirate_z.getD aspirate_z
  let pre_disp : Int := if 0 < a.pre_dispense_volume then pyInt a.pre_dispense_volume else 0
  let vac_delay : Int := if 0 < a.vacuum_delay_volume then pyInt a.vacuum_delay_volume else 0
  let intensity_byte : Nat :=
    if 0 < a.shake_duration then intensity_to_byte_get a.shake_intensity else 0x00
  let sec_x : Int := if a.secondary_aspirate then a.secondary_x else 0
  let sec_y : Int := if a.secondary_aspirate then a.secondary_y else 0
  let final_sec_x : Int := if a.final_secondary_aspirate then a.final_secondary_x else 0
  let final_sec_y : Int := if a.final_secondary_aspirate then a.final_secondary_y else 0
  let final_sec_z : Int := if a.final_secondary_aspirate then final_secondary_z else final_asp_z
  let bw_vol : Int := if a.bottom_wash then pyInt a.bottom_wash_volume else disp_vol
  let bw_flow : Int := if a.bottom_wash then a.bottom_wash_flow_rate else a.dispense_flow_rate
  let midcyc_vol : Int :=
    if 0 < a.pre_dispense_between_cycles_volume then pyInt a.pre_dispense_between_cycles_volume
    else pre_disp
  let midcyc_flow : Int :=
    if 0 < a.pre_dispense_between_cycles_volume then a.pre_dispense_between_cycles_flow_rate
    else a.pre_dispense_flow_rate
  -- Header [0-6]
  u8 plate_type.value
    ++ u8 (if a.bottom_wash then 0x01 else 0x00)
    ++ u8 (if a.final_aspirate then 0x01 else 0x00)
    ++ u8 (if a.wash_format = "Sector" then 0x01 else 0x00)
    ++ i16 a.sector_mask
    ++ i8 a.cycles
  -- Dispense section 1 [7-28]
    ++ u8 buffer_char
    ++ i16 bw_vol
    ++ i8 bw_flow
    ++ i8 a.dispense_x
    ++ i8 a.dispense_y
    ++ i16 dispense_z
    ++ i16 pre_disp
    ++ i8 a.pre_dispense_flow_rate
    ++ i16 vac_delay
    ++ List.replicate 7 0x00
    ++ i16 a.final_aspirate_delay_ms
  -- Final aspirate section [29-48]
    ++ i8 a.aspirate_travel_rate
    ++ u16 0x0000
    ++ i16 final_asp_z
    ++ u8 (if a.final_secondary_aspirate then 0x01 else 0x00)
    ++ i8 a.final_aspirate_x
    ++ i8 a.final_aspirate_y
    ++ i16 final_sec_z
    ++ u8 0x00
    ++ i8 final_sec_x
    ++ i8 final_sec_y
    ++ List.replicate 5 0x00
    ++ u8 0x00
    ++ i8 (a.aspirate_delay_ms % 256)
  -- Primary aspirate section [49-67]
    ++ i8 (a.aspirate_delay_ms / 256 % 256)
    ++ i8 a.aspirate_travel_rate
    ++ i8 a.aspirate_x
    ++ i8 a.aspirate_y
    ++ i16 aspirate_z
    ++ u8 (if a.secondary_aspirate then 0x01 else 0x00)
    ++ i8 sec_x
    ++ i8 sec_y
    ++ i16 secondary_z
    ++ List.replicate 8 0x00
  -- Dispense section 2 [68-86]
    ++ u8 buffer_char
    ++ i16 disp_vol
    ++ i8 a.dispense_flow_rate
    ++ i8 a.dispense_x
    ++ i8 a.dispense_y
    ++ i16 dispense_z
    ++ i16 midcyc_vol
    ++ i8 midcyc_flow
    ++ i16 vac_delay
    ++ List.replicate 6 0x00
  -- Shake/soak section [87-101]
    ++ u8 (if a.move_home_first then 0x01 else 0x00)
    ++ i16 a.shake_duration
    ++ u8 (if 0 < a.shake_duration then intensity_byte else 0x03)
    ++ u8 0x00
    ++ i16 a.soak_duration
    ++ List.replicate 4 0x00
    ++ List.replicate 4 0x00

/-- The sector-list-to-bitmask conversion at the top of `manifold_wash`:
each quadrant number must be 1–4, `None` selects all four (0x0F). -/
def sectors_to_mask (sectors : Option (List Int)) : Except Unit Int :=
  match sectors with
  | none => .ok 0x0F
  | some qs =>
    if qs.all (fun q => decide (1 ≤ q ∧ q ≤ 4)) then
      .ok (((qs.foldl (fun mask q => mask ||| (1 <<< (q.toNat - 1))) 0 : Nat) : Int))
    else
      .error ()

/-- The observable result of a step command that reached the transport:
the command payload, the framed message, and the timeout handed to
`_send_step_command`. -/
structure SentStep where
  payload : List Nat
  framed : List Nat
  timeout : ℚ
deriving DecidableEq, Repr

/-- `EL406ManifoldStepsMixin.manifold_wash`: convert delays to wire
units, convert the sector list, validate (raising before any bytes are
produced), build the 102-byte payload, frame it as command 0xA4, and
send with the duration-derived timeout
`cycles * 60 + shake_duration + soak_duration + 120`. -/
def manifold_wash (plate_type : EL406PlateType) (p : WashParams) : Except Unit SentStep := do
  let aspirate_delay_ms := pyRound (p.aspirate_delay * 1000)
  let final_aspirate_delay_ms := pyRound (p.final_aspirate_delay * 1000)
  let sector_mask ← sectors_to_mask p.sectors
  let resolved ← validate_wash_params plate_type p aspirate_delay_ms
    final_aspirate_delay_ms sector_mask
  let data := build_wash_composite_command plate_type
    { cycles := p.cycles, buffer := p.buffer,
      dispense_volume := some resolved.1,
      dispense_flow_rate := p.dispense_flow_rate,
      dispense_x := p.dispense_x, dispense_y := p.dispense_y,
      dispense_z := some resolved.2.1,
      aspirate_travel_rate := p.aspirate_travel_rate,
      aspirate_z := some resolved.2.2.1,
      pre_dispense_flow_rate := p.pre_dispense_flow_rate,
      aspirate_delay_ms := aspirate_delay_ms,
      aspirate_x := p.aspirate_x, aspirate_y := p.aspirate_y,
      final_aspirate := p.final_aspirate,
      final_aspirate_z := p.final_aspirate_z,
      final_aspirate_x := p.final_aspirate_x, final_aspirate_y := p.final_aspirate_y,
      final_aspirate_delay_ms := final_aspirate_delay_ms,
      pre_dispense_volume := p.pre_dispense_volume,
      vacuum_delay_volume := p.vacuum_delay_volume,
      soak_duration := p.soak_duration, shake_duration := p.shake_duration,
      shake_intensity := p.shake_intensity,
      secondary_aspirate := p.secondary_aspirate,
      secondary_z := some resolved.2.2.2.1,
      secondary_x := p.secondary_x, secondary_y := p.secondary_y,
      final_secondary_aspirate := p.final_secondary_aspirate,
      final_secondary_z := some resolved.2.2.2.2,
      final_secondary_x := p.final_secondary_x, final_secondary_y := p.final_secondary_y,
      bottom_wash := p.bottom_wash, bottom_wash_volume := p.bottom_wash_volume,
      bottom_wash_flow_rate := p.bottom_wash_flow_rate,
      pre_dispense_between_cycles_volume := p.pre_dispense_between_cycles_volume,
      pre_dispense_between_cycles_flow_rate := p.pre_dispense_between_cycles_flow_rate,
      wash_format := p.wash_format, sector_mask := sector_mask,
      move_home_first := p.move_home_first }
  let framed := build_framed_message 0xA4 data
  let wash_timeout : Int := p.cycles * 60 + p.shake_duration + p.soak_duration + 120
  pure { payload := data, framed := framed, timeout := (wash_timeout : ℚ) }

/-- `EL406ManifoldStepsMixin._build_manifold_prime_command`: the 13-byte
MANIFOLD_PRIME (0xA7) payload. -/
def build_manifold_prime_command (plate_type : EL406PlateType) (buffer : Char)
    (volume_ml : Int) (flow_rate : Int) (low_flow_volume_ml : Int) (low_flow_enabled : Bool)
    (submerge_enabled : Bool) (submerge_duration_min : Int) : List Nat :=
  let lf_vol : Int :=
    if low_flow_enabled ∧ 0 < low_flow_volume_ml then low_flow_volume_ml else 0
  let sub_dur : Int := if submerge_enabled then submerge_duration_min else 0
  u8 plate_type.value
    ++ u8 buffer.toUpper.toNat
    ++ i16 volume_ml
    ++ i8 flow_rate
    ++ i16 lf_vol
    ++ i16 sub_dur
    ++ List.replicate 4 0x00

/-- `EL406ManifoldStepsMixin.manifold_prime`: validate in PLR units
(volume 5000–999000 µL, buffer, flow rate 3–11, low-flow volume 0 or
5000–999000 µL, submerge duration 0 or 60–86340 s and a multiple of
60 s), convert to wire units (µL→mL, s→min), build the 0xA7 payload and
send with timeout `self.timeout + submerge_duration + 30`. -/
def manifold_prime (plate_type : EL406PlateType) (volume : ℚ) (buffer : Char)
    (flow_rate : Int) (low_flow_volume : ℚ) (submerge_duration : ℚ) (self_timeout : ℚ) :
    Except Unit SentStep := do
  check (5000 ≤ volume ∧ volume ≤ 999000)
  validate_buffer buffer
  check (3 ≤ flow_rate ∧ flow_rate ≤ 11)
  check (low_flow_volume = 0 ∨ (5000 ≤ low_flow_volume ∧ low_flow_volume ≤ 999000))
  check (submerge_duration = 0 ∨ (60 ≤ submerge_duration ∧ submerge_duration ≤ 86340))
  check (pyMod submerge_duration 60 = 0)
  let volume_ml := pyRound (volume / 1000)
  let low_flow_volume_ml := pyRound (low_flow_volume / 1000)
  let submerge_duration_min := pyRound (submerge_duration / 60)
  let low_flow_enabled := 0 < low_flow_volume
  let submerge_enabled := 0 < submerge_duration
  let data := build_manifold_prime_command plate_type buffer volume_ml flow_rate
    low_flow_volume_ml (decide low_flow_enabled) (decide submerge_enabled)
    submerge_duration_min
  let framed := build_framed_message 0xA7 data
  pure { payload := data, framed := framed, timeout := self_timeout + submerge_duration + 30 }

/-- `EL406ManifoldStepsMixin._build_auto_clean_command`: the 8-byte
MANIFOLD_AUTO_CLEAN (0xA8) payload. -/
def build_auto_clean_command (plate_type : EL406PlateType) (buffer : Char)
    (duration_min : Int) : List Nat :=
  u8 plate_type.value
    ++ u8 buffer.toUpper.toNat
    ++ i16 duration_min
    ++ List.replicate 4 0x00

/-- `EL406ManifoldStepsMixin.manifold_auto_clean`: validate buffer and
duration (60–14340 s, a multiple of 60 s), convert seconds to minutes,
build the 0xA8 payload and send with timeout `max(120, duration + 30)`. -/
def manifold_auto_clean (plate_type : EL406PlateType) (buffer : Char) (duration : ℚ) :
    Except Unit SentStep := do
  validate_buffer buffer
  check (60 ≤ duration ∧ duration ≤ 14340)
  check (pyMod duration 60 = 0)
  let duration_min := pyRound (duration / 60)
  let data := build_auto_clean_command plate_type buffer duration_min
  let framed := build_framed_message 0xA8 data
  pure { payload := data, framed := framed, timeout := max 120 (duration + 30) }

end Steps

/-! ## Theorems -/

/-- While the `_in_batch` flag is set, no program can issue another
start or cleanup sequence: every nested `batch()` scope is a no-op
passthrough and the flag stays set. -/
theorem exec_preserves_in_batch (p : Prog) :
    ∀ s : BackendState, s.in_batch = true →
      (exec p s).1.in_batch = true
      ∧ (exec p s).1.trace.count BatchEvent.startSeq = s.trace.count BatchEvent.startSeq
      ∧ (exec p s).1.trace.count BatchEvent.cleanupSeq = s.trace.count BatchEvent.cleanupSeq := by
  induction p with
  | send ok =>
    intro s h
    simp [exec, h, List.count_append]
  | seq p q ihp ihq =>
    intro s h
    obtain ⟨h1, h2, h3⟩ := ihp s h
    by_cases hok : (exec p s).2
    · obtain ⟨g1, g2, g3⟩ := ihq (exec p s).1 h1
      simp only [exec, hok, if_true]
      exact ⟨g1, by rw [g2, h2], by rw [g3, h3]⟩
    · simp only [exec, hok, if_false]
      exact ⟨h1, h2, h3⟩
  | batchScope body ih =>
    intro s h
    simpa [exec, h] using ih s h

/-- C1: for any sequence of nested batch-scope entries and exits on one
backend — the body may contain arbitrarily nested `batch()` scopes and
auto-wrapping step commands, and may raise at any depth — exactly one
start sequence and exactly one cleanup sequence are issued overall, and
the `_in_batch` flag is false after the outermost scope exits, under
both normal return and exception propagation (the conclusion holds
whatever the success flag of the execution is). -/
theorem batch_lifecycle_invariant (body : Prog) (s : BackendState) (h : s.in_batch = false) :
    (exec (Prog.batchScope body) s).1.in_batch = false
    ∧ (exec (Prog.batchScope body) s).1.trace.count BatchEvent.startSeq
        = s.trace.count BatchEvent.startSeq + 1
    ∧ (exec (Prog.batchScope body) s).1.trace.count BatchEvent.cleanupSeq
        = s.trace.count BatchEvent.cleanupSeq + 1 := by
  obtain ⟨h1, h2, h3⟩ := exec_preserves_in_batch body
    { s with in_batch := true, trace := s.trace ++ [BatchEvent.startSeq] } rfl
  simp only [exec, h, if_false, Bool.false_eq_true]
  refine ⟨trivial, ?_, ?_⟩
  · simp [List.count_append, h2]
  · simp [List.count_append, h3]

/-- Witness for C1: a batch scope whose body runs one successful
auto-wrapped step command and then a nested scope whose step raises,
started from an idle backend with an empty trace. -/
theorem batch_lifecycle_invariant_witness :
    (⟨false, []⟩ : BackendState).in_batch = false
    ∧ ((exec (Prog.batchScope (Prog.seq (stepCmd true) (Prog.batchScope (Prog.send false))))
          ⟨false, []⟩).1.in_batch = false
        ∧ (exec (Prog.batchScope (Prog.seq (stepCmd true) (Prog.batchScope (Prog.send false))))
            ⟨false, []⟩).1.trace.count BatchEvent.startSeq
          = (⟨false, []⟩ : BackendState).trace.count BatchEvent.startSeq + 1
        ∧ (exec (Prog.batchScope (Prog.seq (stepCmd true) (Prog.batchScope (Prog.send false))))
            ⟨false, []⟩).1.trace.count BatchEvent.cleanupSeq
          = (⟨false, []⟩ : BackendState).trace.count BatchEvent.cleanupSeq + 1) :=
  ⟨rfl, batch_lifecycle_invariant (Prog.seq (stepCmd true) (Prog.batchScope (Prog.send false)))
    ⟨false, []⟩ rfl⟩

/-- C2: for every 16-bit command code and every data byte string,
`build_framed_message` returns exactly the 11-byte header
`[0x01, 0x02, command_lo, command_hi, 0x01, 0x00, 0x00, len_lo, len_hi,
checksum_lo, checksum_hi]` followed by the data bytes, where the length
field is `len(data)` little-endian and the 16-bit little-endian checksum
is the two's complement, mod 2^16, of the sum of header bytes 0–8 plus
all data bytes (i.e. the unique value below 2^16 making the total sum
vanish mod 2^16). -/
theorem build_framed_message_layout (command : Nat) (data : List Nat)
    (hcmd : command < 65536) (hlen : data.length < 65536) (hbytes : ∀ b ∈ data, b < 256) :
    ∃ checksum : Nat,
      build_framed_message command data
        = [0x01, 0x02, command % 256, command / 256, 0x01, 0x00, 0x00,
            data.length % 256, data.length / 256, checksum % 256, checksum / 256] ++ data
      ∧ checksum < 65536
      ∧ (checksum
          + (0x01 + 0x02 + (command % 256) + (command / 256) + 0x01 + 0x00 + 0x00
              + (data.length % 256) + (data.length / 256) + data.sum)) % 65536 = 0 := by
  simp only [build_framed_message, u8, u16,
    Nat.mod_eq_of_lt hcmd, Nat.mod_eq_of_lt hlen]
  refine ⟨_, rfl, ?_, ?_⟩
  · simp only [List.sum_append, List.sum_cons, List.sum_nil]
    omega
  · simp only [List.sum_append, List.sum_cons, List.sum_nil]
    omega

/-- Witness for C2: the MANIFOLD_WASH command code 0xA4 with a three-byte
payload. -/
theorem build_framed_message_layout_witness :
    (0xA4 : Nat) < 65536
    ∧ ([0x01, 0x02, 0x03] : List Nat).length < 65536
    ∧ (∀ b ∈ ([0x01, 0x02, 0x03] : List Nat), b < 256)
    ∧ ∃ checksum : Nat,
        build_framed_message 0xA4 [0x01, 0x02, 0x03]
          = [0x01, 0x02, 0xA4 % 256, 0xA4 / 256, 0x01, 0x00, 0x00,
              ([0x01, 0x02, 0x03] : List Nat).length % 256,
              ([0x01, 0x02, 0x03] : List Nat).length / 256,
              checksum % 256, checksum / 256] ++ [0x01, 0x02, 0x03]
        ∧ checksum < 65536
        ∧ (checksum
            + (0x01 + 0x02 + (0xA4 % 256) + (0xA4 / 256) + 0x01 + 0x00 + 0x00
                + (([0x01, 0x02, 0x03] : List Nat).length % 256)
                + (([0x01, 0x02, 0x03] : List Nat).length / 256)
                + ([0x01, 0x02, 0x03] : List Nat).sum)) % 65536 = 0 :=
  ⟨by decide, by decide, by decide,
    build_framed_message_layout 0xA4 [0x01, 0x02, 0x03] (by decide) (by decide) (by decide)⟩

/-- C3 (code bug): the wash-defaults resolver that the manifold step
commands actually use — `get_plate_type_wash_defaults` in
`steps/_manifold.py`, which tests `pt["cols"] == 12` — resolves the
96-well default dispense volume to 100 µL even though the 96-well table
record has `rows * cols = 96` (its `cols` field is 8), so the documented
"300 µL iff well count is 96" rule is violated; the `helpers.py`
resolver of the same name implements the documented rule and returns
300 µL. The Z defaults (dispense_z 121, aspirate_z 29 for 96-well) are
as documented. -/
theorem wash_defaults_resolver_96_well_volume_bug :
    (Steps.get_plate_type_wash_defaults EL406PlateType.PLATE_96_WELL).dispense_volume = 100
    ∧ (PLATE_TYPE_DEFAULTS EL406PlateType.PLATE_96_WELL).rows
        * (PLATE_TYPE_DEFAULTS EL406PlateType.PLATE_96_WELL).cols = 96
    ∧ (Helpers.get_plate_type_wash_defaults EL406PlateType.PLATE_96_WELL).dispense_volume = 300
    ∧ (Steps.get_plate_type_wash_defaults EL406PlateType.PLATE_96_WELL).dispense_z = 121
    ∧ (Steps.get_plate_type_wash_defaults EL406PlateType.PLATE_96_WELL).aspirate_z = 29
    ∧ (Steps.get_plate_type_wash_defaults EL406PlateType.PLATE_384_WELL).dispense_volume = 100
    ∧ (Steps.get_plate_type_wash_defaults EL406PlateType.PLATE_384_WELL).dispense_z = 120
    ∧ (Steps.get_plate_type_wash_defaults EL406PlateType.PLATE_384_WELL).aspirate_z = 22 := by
  refine ⟨?_, by decide, ?_, by decide, by decide, ?_, by decide, by decide⟩
  · simp [Steps.get_plate_type_wash_defaults, PLATE_TYPE_DEFAULTS]
  · simp [Helpers.get_plate_type_wash_defaults, PLATE_TYPE_DEFAULTS]
  · simp [Steps.get_plate_type_wash_defaults, PLATE_TYPE_DEFAULTS]

/-- `mask[i // 8] |= ...` keeps the 6-byte mask length. -/
theorem mask_set_bit_length (mask : List Nat) (c : Nat) :
    (mask_set_bit mask c).length = mask.length := by
  simp [mask_set_bit]

/-- The mask-building fold keeps the mask length. -/
theorem mask_fold_length (cols : List Int) :
    ∀ mask : List Nat,
      (cols.foldl (fun m c => mask_set_bit m c.toNat) mask).length = mask.length := by
  induction cols with
  | nil => intro mask; rfl
  | cons c cols ih =>
    intro mask
    simp only [List.foldl_cons]
    rw [ih, mask_set_bit_length]

/-- Setting the bit for one index sets exactly that bit. -/
theorem mask_set_bit_testBit (mask : List Nat) (hm : mask.length = 6) (c i : Nat)
    (hc : c < 48) (hi : i < 48) :
    ((mask_set_bit mask c).getD (i / 8) 0).testBit (i % 8)
      = (((mask.getD (i / 8) 0).testBit (i % 8)) || decide (i = c)) := by
  unfold mask_set_bit
  by_cases h : i / 8 = c / 8
  · have hlt : c / 8 < mask.length := by omega
    rw [h, List.getD_eq_getElem?_getD, List.getElem?_set_self hlt]
    have hget : ((some (mask.getD (c / 8) 0 ||| 1 <<< (c % 8))).getD 0)
        = (mask.getD (c / 8) 0 ||| 1 <<< (c % 8)) := rfl
    have hpow : (1 : Nat) <<< (c % 8) = 2 ^ (c % 8) := by
      rw [Nat.shiftLeft_eq, one_mul]
    have hdec : ((2 ^ (c % 8)).testBit (i % 8)) = decide (i = c) := by
      by_cases hic : i = c
      · subst hic; simp [Nat.testBit_two_pow_self]
      · have hne : c % 8 ≠ i % 8 := by omega
        simp [Nat.testBit_two_pow_of_ne hne, hic]
    rw [hget, Nat.testBit_or, hpow, hdec]
  · have hne : i ≠ c := by omega
    rw [List.getD_eq_getElem?_getD, List.getElem?_set_ne (by omega),
      ← List.getD_eq_getElem?_getD]
    simp [hne]

/-- After folding a list of in-range indices into the mask, a bit is
set iff it was set before or its index occurs in the list. -/
theorem mask_fold_testBit (cols : List Int) :
    ∀ mask : List Nat, mask.length = 6 → (∀ c ∈ cols, 0 ≤ c ∧ c ≤ 47) →
      ∀ i : Nat, i < 48 →
        ((cols.foldl (fun m c => mask_set_bit m c.toNat) mask).getD (i / 8) 0).testBit (i % 8)
          = (((mask.getD (i / 8) 0).testBit (i % 8)) || decide ((i : Int) ∈ cols)) := by
  induction cols with
  | nil => intro mask _ _ i _; simp
  | cons c cols ih =>
    intro mask hm hr i hi
    obtain ⟨hc0, hc47⟩ := hr c (by simp)
    have hm2 : (mask_set_bit mask c.toNat).length = 6 := by
      rw [mask_set_bit_length]; exact hm
    simp only [List.foldl_cons]
    rw [ih (mask_set_bit mask c.toNat) hm2 (fun x hx => hr x (List.mem_cons_of_mem c hx)) i hi]
    rw [mask_set_bit_testBit mask hm c.toNat i (by omega) hi]
    have hiff : ((i : Int) ∈ c :: cols) ↔ (i = c.toNat ∨ (i : Int) ∈ cols) := by
      simp only [List.mem_cons]
      constructor
      · rintro (h | h)
        · left; omega
        · right; exact h
      · rintro (h | h)
        · left; omega
        · right; exact h
    have hdd : decide (i = c.toNat ∨ (i : Int) ∈ cols) = decide ((i : Int) ∈ c :: cols) :=
      decide_eq_decide.mpr hiff.symm
    rw [Bool.or_assoc, ← Bool.decide_or, hdd]

/-- C4: the 48-bit column/well mask encoder maps `None` to six 0xFF
bytes (all selected) and the empty list to six 0x00 bytes (none
selected); for every list of indices each in 0–47 encoding succeeds and
bit `index % 8` of output byte `index / 8` is 1 exactly when the index
is in the list (so decoding recovers the selected set); and for every
list containing an index outside 0–47 the encoder raises `ValueError`
without producing output. -/
theorem column_mask_roundtrip :
    (encode_column_mask none = .ok [0xFF, 0xFF, 0xFF, 0xFF, 0xFF, 0xFF])
    ∧ (encode_column_mask (some []) = .ok [0x00, 0x00, 0x00, 0x00, 0x00, 0x00])
    ∧ (∀ cols : List Int, (∀ c ∈ cols, 0 ≤ c ∧ c ≤ 47) →
        ∃ mask : List Nat,
          encode_column_mask (some cols) = .ok mask
          ∧ mask.length = 6
          ∧ ∀ i : Nat, i < 48 →
              (((mask.getD (i / 8) 0).testBit (i % 8)) = true ↔ (i : Int) ∈ cols))
    ∧ (∀ cols : List Int, (∃ c ∈ cols, c < 0 ∨ 47 < c) →
        encode_column_mask (some cols) = .error ()) := by
  refine ⟨rfl, rfl, ?_, ?_⟩
  · intro cols hr
    have hall : cols.all (fun col => decide (0 ≤ col ∧ col ≤ 47)) = true := by
      simp only [List.all_eq_true, decide_eq_true_eq]
      exact hr
    have heq : encode_column_mask (some cols)
        = .ok (cols.foldl (fun mask col => mask_set_bit mask col.toNat) (List.replicate 6 0)) := by
      simp only [encode_column_mask]
      split
      next h => rfl
      next h => exact absurd hall h
    refine ⟨_, heq, ?_, ?_⟩
    · rw [mask_fold_length]; rfl
    · intro i hi
      rw [mask_fold_testBit cols (List.replicate 6 0) rfl hr i hi]
      have hz : ((List.replicate 6 (0 : Nat)).getD (i / 8) 0) = 0 := by
        have hb : ∀ j : Nat, j < 6 → ((List.replicate 6 (0 : Nat)).getD j 0) = 0 := by decide
        exact hb (i / 8) (by omega)
      rw [hz, Nat.zero_testBit, Bool.false_or]
      simp
  · intro cols hbad
    obtain ⟨c, hcmem, hcbad⟩ := hbad
    have hnot : ¬ (cols.all (fun col => decide (0 ≤ col ∧ col ≤ 47)) = true) := by
      simp only [List.all_eq_true, decide_eq_true_eq]
      intro hforall
      obtain ⟨h1, h2⟩ := hforall c hcmem
      omega
    simp only [encode_column_mask]
    split
    next h => exact absurd h hnot
    next h => rfl


/-- Witness for C4: the index set {0, 8, 47} round-trips, and the
out-of-range index 48 is rejected. -/
theorem column_mask_roundtrip_witness :
    (∀ c ∈ ([0, 8, 47] : List Int), 0 ≤ c ∧ c ≤ 47)
    ∧ (∃ mask : List Nat,
        encode_column_mask (some [0, 8, 47]) = .ok mask
        ∧ mask.length = 6
        ∧ ∀ i : Nat, i < 48 →
            (((mask.getD (i / 8) 0).testBit (i % 8)) = true ↔ (i : Int) ∈ [0, 8, 47]))
    ∧ (∃ c ∈ ([48] : List Int), c < 0 ∨ 47 < c)
    ∧ encode_column_mask (some [48]) = .error () :=
  ⟨by decide,
   column_mask_roundtrip.2.2.1 [0, 8, 47] (by decide),
   by decide,
   column_mask_roundtrip.2.2.2 [48] (by decide)⟩

/-- Clearing a bit never increases the mask. -/
theorem mask_clear_bit_le (mask bit : Nat) : mask_clear_bit mask bit ≤ mask := by
  unfold mask_clear_bit
  split
  · exact Nat.sub_le mask (1 <<< bit)
  · exact le_refl mask

/-- The row-clearing fold never increases the mask. -/
theorem mask_clear_fold_le (rows : List Int) :
    ∀ mask : Nat, rows.foldl (fun m r => mask_clear_bit m (r.toNat - 1)) mask ≤ mask := by
  induction rows with
  | nil => intro mask; exact le_refl mask
  | cons r rows ih =>
    intro mask
    simp only [List.foldl_cons]
    exact le_trans (ih (mask_clear_bit mask (r.toNat - 1))) (mask_clear_bit_le mask (r.toNat - 1))

/-- C5: the inverted row/quadrant mask encoder returns 0x00 for
`rows=None`; with `num_row_groups=4`, encoding `rows=[1]` returns 0x0E
(bit 0 cleared, bits 1–3 set); for every row list containing a row
outside `1..num_row_groups` it raises `ValueError`; and every
successfully encoded mask has all bits at positions `≥ num_row_groups`
equal to 0 (unused slots forced to the selected state). -/
theorem inverted_row_mask :
    (∀ n : Nat, encode_quadrant_mask_inverted none n = .ok 0x00)
    ∧ encode_quadrant_mask_inverted (some [1]) 4 = .ok 0x0E
    ∧ (∀ rows : List Int, ∀ n : Nat, (∃ r ∈ rows, r < 1 ∨ (n : Int) < r) →
        encode_quadrant_mask_inverted (some rows) n = .error ())
    ∧ (∀ rows : Option (List Int), ∀ n m : Nat,
        encode_quadrant_mask_inverted rows n = .ok m →
        ∀ i : Nat, n ≤ i → m.testBit i = false) := by
  refine ⟨fun n => rfl, by decide, ?_, ?_⟩
  · intro rows n hbad
    obtain ⟨r, hrmem, hrbad⟩ := hbad
    have hnot : ¬ (rows.all (fun row => decide (1 ≤ row ∧ row ≤ (n : Int))) = true) := by
      simp only [List.all_eq_true, decide_eq_true_eq]
      intro hforall
      obtain ⟨h1, h2⟩ := hforall r hrmem
      omega
    simp only [encode_quadrant_mask_inverted]
    split
    next h => exact absurd h hnot
    next h => rfl
  · intro rows n m hok i hi
    match rows with
    | none =>
      simp only [encode_quadrant_mask_inverted, Except.ok.injEq] at hok
      rw [← hok]
      exact Nat.zero_testBit i
    | some rows =>
      simp only [encode_quadrant_mask_inverted] at hok
      split at hok
      case isTrue h =>
        simp only [Except.ok.injEq] at hok
        have hle : rows.foldl (fun mask row => mask_clear_bit mask (row.toNat - 1))
            ((1 <<< n) - 1) ≤ (1 <<< n) - 1 := mask_clear_fold_le rows ((1 <<< n) - 1)
        have hlt : rows.foldl (fun mask row => mask_clear_bit mask (row.toNat - 1))
            ((1 <<< n) - 1) < 2 ^ i := by
          have h2 : (1 : Nat) <<< n = 2 ^ n := by rw [Nat.shiftLeft_eq, one_mul]
          have hpow : (2 : Nat) ^ n ≤ 2 ^ i := Nat.pow_le_pow_right (by norm_num) hi
          have hp0 : 0 < (2 : Nat) ^ n := Nat.pos_pow_of_pos n (by norm_num)
          omega
        rw [← hok, Nat.testBit_and]
        rw [Nat.testBit_eq_false_of_lt hlt]
        rfl
      case isFalse h => exact absurd hok (by simp)


/-- Witness for C5: row 5 of 4 is rejected, and the mask 0x0E encoded
for row 1 of 4 has bit 7 (a position `≥ 4`) clear. -/
theorem inverted_row_mask_witness :
    (∃ r ∈ ([5] : List Int), r < 1 ∨ (4 : Int) < r)
    ∧ encode_quadrant_mask_inverted (some [5]) 4 = .error ()
    ∧ encode_quadrant_mask_inverted (some [1]) 4 = .ok 0x0E
    ∧ (4 : Nat) ≤ 7
    ∧ (0x0E : Nat).testBit 7 = false :=
  ⟨by decide,
   inverted_row_mask.2.2.1 [5] 4 (by decide),
   by decide,
   by decide,
   inverted_row_mask.2.2.2 (some [1]) 4 0x0E (by decide) 7 (by decide)⟩


/-- C6: calling `manifold_wash` with `cycles=0`, or `buffer="Z"`, or
`dispense_flow_rate=0` or `10`, or `aspirate_travel_rate=0` or `10`
(all other parameters at their Python defaults, on a 96-well plate)
raises `ValueError` during validation: the result is an error and no
payload, framed message or send is produced. -/
theorem wash_validation_rejection :
    Steps.manifold_wash EL406PlateType.PLATE_96_WELL { cycles := 0 } = .error ()
    ∧ Steps.manifold_wash EL406PlateType.PLATE_96_WELL { buffer := 'Z' } = .error ()
    ∧ Steps.manifold_wash EL406PlateType.PLATE_96_WELL { dispense_flow_rate := 0 } = .error ()
    ∧ Steps.manifold_wash EL406PlateType.PLATE_96_WELL { dispense_flow_rate := 10 } = .error ()
    ∧ Steps.manifold_wash EL406PlateType.PLATE_96_WELL { aspirate_travel_rate := 0 } = .error ()
    ∧ Steps.manifold_wash EL406PlateType.PLATE_96_WELL { aspirate_travel_rate := 10 }
        = .error () := by
  refine ⟨?_, ?_, ?_, ?_, ?_, ?_⟩ <;> decide

namespace Steps

/-- On a 96-well plate with volume 100, buffer A, offsets 0, default Z,
no pre-dispense and pre-dispense flow 9, a cell-wash flow rate (1 or 2)
is accepted exactly when the vacuum delay volume is positive and within
its 0–3000 range. -/
theorem validate_dispense_params_vac_char (flow_rate : Int) (hf : flow_rate = 1 ∨ flow_rate = 2)
    (vac : ℚ) :
    validate_dispense_params EL406PlateType.PLATE_96_WELL 100 'A' flow_rate 0 0 none 0 9 vac
      = if 0 < vac ∧ vac ≤ 3000 then .ok 121 else .error () := by
  by_cases hv1 : 0 < vac <;> by_cases hv2 : vac ≤ 3000 <;>
    rcases hf with hf | hf <;>
      subst hf <;>
        simp [validate_dispense_params, check, validate_buffer, validate_manifold_xy,
          validate_dispense_extras, get_plate_type_wash_defaults, PLATE_TYPE_DEFAULTS,
          hv1, hv2, not_lt.mp, le_of_lt] <;>
          rfl

/-- On a 96-well plate with volume 100, buffer A, flow 7, offsets 0,
default Z and no vacuum delay, the pre-dispense volume is accepted
exactly when it is 0 or within 25–3000. -/
theorem validate_dispense_params_pre_char (pre : ℚ) :
    validate_dispense_params EL406PlateType.PLATE_96_WELL 100 'A' 7 0 0 none pre 9 0
      = if pre = 0 ∨ (25 ≤ pre ∧ pre ≤ 3000) then .ok 121 else .error () := by
  by_cases hp : pre = 0 ∨ (25 ≤ pre ∧ pre ≤ 3000) <;>
    simp [validate_dispense_params, check, validate_buffer, validate_manifold_xy,
      validate_dispense_extras, get_plate_type_wash_defaults, PLATE_TYPE_DEFAULTS, hp] <;>
      rfl

/-- C7: manifold dispense validation raises `ValueError` for flow rates
1 and 2 (cell-wash mode) whenever `vacuum_delay_volume ≤ 0`, and for
every `pre_dispense_volume` that is neither exactly 0 nor within
[25, 3000]; it accepts flow rates 1–2 as soon as `vacuum_delay_volume`
is positive (and within its own 0–3000 range), and accepts
`pre_dispense_volume = 0`. Stated at a 96-well plate with the other
parameters valid (volume 100, buffer A, dispense flow 7 in the
pre-dispense family, offsets 0, default Z, pre-dispense flow 9). -/
theorem dispense_conditional_requirements :
    (∀ flow_rate : Int, (flow_rate = 1 ∨ flow_rate = 2) → ∀ vac : ℚ, vac ≤ 0 →
        validate_dispense_params EL406PlateType.PLATE_96_WELL 100 'A' flow_rate 0 0 none 0 9 vac
          = .error ())
    ∧ (∀ flow_rate : Int, (flow_rate = 1 ∨ flow_rate = 2) → ∀ vac : ℚ, 0 < vac → vac ≤ 3000 →
        validate_dispense_params EL406PlateType.PLATE_96_WELL 100 'A' flow_rate 0 0 none 0 9 vac
          = .ok 121)
    ∧ (∀ pre : ℚ, pre ≠ 0 → ¬(25 ≤ pre ∧ pre ≤ 3000) →
        validate_dispense_params EL406PlateType.PLATE_96_WELL 100 'A' 7 0 0 none pre 9 0
          = .error ())
    ∧ validate_dispense_params EL406PlateType.PLATE_96_WELL 100 'A' 7 0 0 none 0 9 0
        = .ok 121 := by
  refine ⟨?_, ?_, ?_, ?_⟩
  · intro flow_rate hf vac hvac
    rw [validate_dispense_params_vac_char flow_rate hf vac, if_neg]
    intro hcon
    exact absurd hvac (not_le.mpr hcon.1)
  · intro flow_rate hf vac hv1 hv2
    rw [validate_dispense_params_vac_char flow_rate hf vac, if_pos ⟨hv1, hv2⟩]
  · intro pre hp1 hp2
    rw [validate_dispense_params_pre_char pre, if_neg]
    rintro (h | h)
    · exact hp1 h
    · exact hp2 h
  · rw [validate_dispense_params_pre_char 0, if_pos (Or.inl rfl)]

/-- Witness for C7: flow rate 1 with vacuum delay −5 µL is rejected,
flow rate 2 with vacuum delay 50 µL is accepted, and pre-dispense
volume 10 µL (below 25) is rejected. -/
theorem dispense_conditional_requirements_witness :
    ((1 : Int) = 1 ∨ (1 : Int) = 2)
    ∧ (-5 : ℚ) ≤ 0
    ∧ validate_dispense_params EL406PlateType.PLATE_96_WELL 100 'A' 1 0 0 none 0 9 (-5)
        = .error ()
    ∧ ((2 : Int) = 1 ∨ (2 : Int) = 2)
    ∧ (0 : ℚ) < 50
    ∧ (50 : ℚ) ≤ 3000
    ∧ validate_dispense_params EL406PlateType.PLATE_96_WELL 100 'A' 2 0 0 none 0 9 50
        = .ok 121
    ∧ (10 : ℚ) ≠ 0
    ∧ ¬(25 ≤ (10 : ℚ) ∧ (10 : ℚ) ≤ 3000)
    ∧ validate_dispense_params EL406PlateType.PLATE_96_WELL 100 'A' 7 0 0 none 10 9 0
        = .error () :=
  ⟨Or.inl rfl, by norm_num,
   dispense_conditional_requirements.1 1 (Or.inl rfl) (-5) (by norm_num),
   Or.inr rfl, by norm_num, by norm_num,
   dispense_conditional_requirements.2.1 2 (Or.inr rfl) 50 (by norm_num) (by norm_num),
   by norm_num, by norm_num,
   dispense_conditional_requirements.2.2.1 10 (by norm_num) (by norm_num)⟩

end Steps

/-- Python `round` is the identity on integers. -/
theorem pyRound_intCast (n : ℤ) : pyRound ((n : ℚ)) = n := by
  unfold pyRound
  rw [rat_floor_eq_floor, Int.floor_intCast, sub_self]
  norm_num

/-- A whole number of minutes passes the `% 60` check. -/
theorem pyMod_sixty_mul (k : ℕ) : pyMod (60 * (k : ℚ)) 60 = 0 := by
  unfold pyMod
  rw [mul_div_cancel_left₀ _ (by norm_num : (60 : ℚ) ≠ 0)]
  rw [rat_floor_eq_floor, Int.floor_natCast]
  push_cast
  ring

/-- The prime volume 5000 µL converts to 5 mL. -/
theorem pyRound_five : pyRound ((5000 : ℚ) / 1000) = 5 := by
  have h : ((5000 : ℚ) / 1000) = ((5 : ℤ) : ℚ) := by norm_num
  rw [h, pyRound_intCast]

/-- `round((60 * k) / 60)` recovers the whole minute count. -/
theorem pyRound_sixty_div (k : ℕ) : pyRound (60 * (k : ℚ) / 60) = (k : ℤ) := by
  rw [mul_div_cancel_left₀ _ (by norm_num : (60 : ℚ) ≠ 0)]
  have h : ((k : ℚ)) = (((k : ℤ)) : ℚ) := by push_cast; ring
  rw [h, pyRound_intCast]

/-- `manifold_prime` (volume 5000, buffer A, flow 9, low-flow 5000)
rejects every in-range submerge duration that is not a multiple of
60 s. -/
theorem manifold_prime_rejects_nonmultiple (d : ℚ) (h1 : 60 ≤ d) (h2 : d ≤ 86340) (h3 : pyMod d 60 ≠ 0) :
    Steps.manifold_prime EL406PlateType.PLATE_96_WELL 5000 'A' 9 5000 d 15 = .error () := by
  have hc5 : check (d = 0 ∨ ((60 : ℚ) ≤ d ∧ d ≤ 86340)) = Except.ok () := by
    unfold check
    rw [if_pos (Or.inr ⟨h1, h2⟩)]
  have hc6 : check (pyMod d 60 = 0) = (Except.error () : Except Unit Unit) := by
    unfold check
    rw [if_neg h3]
  simp only [Steps.manifold_prime, hc5, hc6]
  rfl

/-- `manifold_prime` accepts a submerge duration of `60 * k` seconds
(`1 ≤ k ≤ 1439`) and writes `k` minutes little-endian at payload
bytes 7–8. -/
theorem manifold_prime_accepts_multiple (k : ℕ) (hk1 : 1 ≤ k) (hk2 : k ≤ 1439) :
    ∃ r : Steps.SentStep,
      Steps.manifold_prime EL406PlateType.PLATE_96_WELL 5000 'A' 9 5000 (60 * (k : ℚ)) 15
        = .ok r
      ∧ r.payload = [4, 65, 5, 0, 9, 5, 0, k % 256, k / 256, 0, 0, 0, 0] := by
  have hk1q : (1 : ℚ) ≤ (k : ℚ) := by exact_mod_cast hk1
  have hk2q : ((k : ℚ)) ≤ 1439 := by exact_mod_cast hk2
  have hpos : (0 : ℚ) < 60 * k := by linarith
  have hc5 : check (60 * (k : ℚ) = 0 ∨ ((60 : ℚ) ≤ 60 * k ∧ 60 * (k : ℚ) ≤ 86340))
      = Except.ok () := by
    unfold check
    rw [if_pos (Or.inr ⟨by linarith, by linarith⟩)]
  have hc6 : check (pyMod (60 * (k : ℚ)) 60 = 0) = Except.ok () := by
    unfold check
    rw [if_pos (pyMod_sixty_mul k)]
  have hen : decide ((0 : ℚ) < 60 * (k : ℚ)) = true := decide_eq_true hpos
  refine ⟨⟨Steps.build_manifold_prime_command EL406PlateType.PLATE_96_WELL
        ('A') 5 9 5 true true (k : Int),
      build_framed_message 0xA7 (Steps.build_manifold_prime_command
        EL406PlateType.PLATE_96_WELL ('A') 5 9 5 true true (k : Int)),
      15 + 60 * (k : ℚ) + 30⟩, ?_, ?_⟩
  · simp only [Steps.manifold_prime, hc5, hc6, pyRound_five, pyRound_sixty_div, hen]
    rfl
  · have hA : ('A').toUpper.toNat = 65 := rfl
    simp only [Steps.build_manifold_prime_command, u8, i8, i16, EL406PlateType.value, hA]
    norm_num
    refine ⟨rfl, rfl, rfl, ?_, ?_, rfl⟩
    · omega
    · omega


/-- `manifold_auto_clean` (buffer A) rejects every in-range duration
that is not a multiple of 60 s. -/
theorem manifold_auto_clean_rejects_nonmultiple (d : ℚ) (h1 : 60 ≤ d) (h2 : d ≤ 14340) (h3 : pyMod d 60 ≠ 0) :
    Steps.manifold_auto_clean EL406PlateType.PLATE_96_WELL 'A' d = .error () := by
  have hc2 : check ((60 : ℚ) ≤ d ∧ d ≤ 14340) = Except.ok () := by
    unfold check
    rw [if_pos ⟨h1, h2⟩]
  have hc3 : check (pyMod d 60 = 0) = (Except.error () : Except Unit Unit) := by
    unfold check
    rw [if_neg h3]
  simp only [Steps.manifold_auto_clean, hc2, hc3]
  rfl

/-- `manifold_auto_clean` accepts a duration of `60 * k` seconds
(`1 ≤ k ≤ 239`) and writes `k` minutes little-endian at payload
bytes 2–3. -/
theorem manifold_auto_clean_accepts_multiple (k : ℕ) (hk1 : 1 ≤ k) (hk2 : k ≤ 239) :
    ∃ r : Steps.SentStep,
      Steps.manifold_auto_clean EL406PlateType.PLATE_96_WELL 'A' (60 * (k : ℚ)) = .ok r
      ∧ r.payload = [4, 65, k % 256, k / 256, 0, 0, 0, 0] := by
  have hk1q : (1 : ℚ) ≤ (k : ℚ) := by exact_mod_cast hk1
  have hk2q : ((k : ℚ)) ≤ 239 := by exact_mod_cast hk2
  have hc2 : check ((60 : ℚ) ≤ 60 * (k : ℚ) ∧ 60 * (k : ℚ) ≤ 14340) = Except.ok () := by
    unfold check
    rw [if_pos ⟨by linarith, by linarith⟩]
  have hc3 : check (pyMod (60 * (k : ℚ)) 60 = 0) = Except.ok () := by
    unfold check
    rw [if_pos (pyMod_sixty_mul k)]
  refine ⟨⟨Steps.build_auto_clean_command EL406PlateType.PLATE_96_WELL ('A') (k : Int),
      build_framed_message 0xA8 (Steps.build_auto_clean_command
        EL406PlateType.PLATE_96_WELL ('A') (k : Int)),
      max 120 (60 * (k : ℚ) + 30)⟩, ?_, ?_⟩
  · simp only [Steps.manifold_auto_clean, hc2, hc3, pyRound_sixty_div]
    rfl
  · have hA : ('A').toUpper.toNat = 65 := rfl
    simp only [Steps.build_auto_clean_command, u8, i8, i16, EL406PlateType.value, hA]
    norm_num
    refine ⟨?_, ?_, rfl⟩
    · omega
    · omega

/-- 90 s is not a whole number of minutes. -/
theorem pyMod_ninety_sixty_ne_zero : pyMod (90 : ℚ) 60 ≠ 0 := by
  norm_num [pyMod, rat_floor_eq_floor]


/-- C8: every `submerge_duration` passed to `manifold_prime` and every
`duration` passed to `manifold_auto_clean` that is within the allowed
range (60–86340 s resp. 60–14340 s) but not an exact multiple of 60 s
raises `ValueError` before any bytes are produced (rejecting rather
than rounding); durations that are multiples of 60 s are accepted and
converted to whole minutes on the wire (prime payload bytes 7–8,
auto-clean payload bytes 2–3, little-endian). -/
theorem minute_duration_gate :
    (∀ d : ℚ, 60 ≤ d → d ≤ 86340 → pyMod d 60 ≠ 0 →
        Steps.manifold_prime EL406PlateType.PLATE_96_WELL 5000 'A' 9 5000 d 15 = .error ())
    ∧ (∀ k : ℕ, 1 ≤ k → k ≤ 1439 →
        ∃ r : Steps.SentStep,
          Steps.manifold_prime EL406PlateType.PLATE_96_WELL 5000 'A' 9 5000 (60 * (k : ℚ)) 15
            = .ok r
          ∧ r.payload = [4, 65, 5, 0, 9, 5, 0, k % 256, k / 256, 0, 0, 0, 0])
    ∧ (∀ d : ℚ, 60 ≤ d → d ≤ 14340 → pyMod d 60 ≠ 0 →
        Steps.manifold_auto_clean EL406PlateType.PLATE_96_WELL 'A' d = .error ())
    ∧ (∀ k : ℕ, 1 ≤ k → k ≤ 239 →
        ∃ r : Steps.SentStep,
          Steps.manifold_auto_clean EL406PlateType.PLATE_96_WELL 'A' (60 * (k : ℚ)) = .ok r
          ∧ r.payload = [4, 65, k % 256, k / 256, 0, 0, 0, 0]) :=
  ⟨manifold_prime_rejects_nonmultiple, manifold_prime_accepts_multiple,
   manifold_auto_clean_rejects_nonmultiple, manifold_auto_clean_accepts_multiple⟩

/-- Witness for C8: a 90 s duration (in range, not a multiple of 60 s)
is rejected by both operations, and 120 s (= 2 min) is accepted by both
with 2 minutes on the wire. -/
theorem minute_duration_gate_witness :
    ((60 : ℚ) ≤ 90 ∧ (90 : ℚ) ≤ 86340 ∧ pyMod 90 60 ≠ 0
      ∧ Steps.manifold_prime EL406PlateType.PLATE_96_WELL 5000 'A' 9 5000 90 15 = .error ())
    ∧ (1 ≤ 2 ∧ 2 ≤ 1439
      ∧ ∃ r : Steps.SentStep,
          Steps.manifold_prime EL406PlateType.PLATE_96_WELL 5000 'A' 9 5000
              (60 * ((2 : ℕ) : ℚ)) 15 = .ok r
          ∧ r.payload = [4, 65, 5, 0, 9, 5, 0, 2 % 256, 2 / 256, 0, 0, 0, 0])
    ∧ ((60 : ℚ) ≤ 90 ∧ (90 : ℚ) ≤ 14340 ∧ pyMod 90 60 ≠ 0
      ∧ Steps.manifold_auto_clean EL406PlateType.PLATE_96_WELL 'A' 90 = .error ())
    ∧ (1 ≤ 2 ∧ 2 ≤ 239
      ∧ ∃ r : Steps.SentStep,
          Steps.manifold_auto_clean EL406PlateType.PLATE_96_WELL 'A' (60 * ((2 : ℕ) : ℚ))
            = .ok r
          ∧ r.payload = [4, 65, 2 % 256, 2 / 256, 0, 0, 0, 0]) :=
  ⟨⟨by norm_num, by norm_num, pyMod_ninety_sixty_ne_zero,
      minute_duration_gate.1 90 (by norm_num) (by norm_num) pyMod_ninety_sixty_ne_zero⟩,
   ⟨by norm_num, by norm_num, minute_duration_gate.2.1 2 (by norm_num) (by norm_num)⟩,
   ⟨by norm_num, by norm_num, pyMod_ninety_sixty_ne_zero,
      minute_duration_gate.2.2.1 90 (by norm_num) (by norm_num) pyMod_ninety_sixty_ne_zero⟩,
   ⟨by norm_num, by norm_num, minute_duration_gate.2.2.2 2 (by norm_num) (by norm_num)⟩⟩

/-- Sequencing after a successful step runs the continuation. -/
theorem except_ok_bind {ε α β : Type} (a : α) (f : α → Except ε β) :
    (Except.ok a : Except ε α) >>= f = f a := rfl

/-- A raised error short-circuits the rest of an operation. -/
theorem except_error_bind {ε α β : Type} (e : ε) (f : α → Except ε β) :
    (Except.error e : Except ε α) >>= f = Except.error e := rfl

/-- The wash payload builder emits fixed-size sections totalling
7 + 22 + 20 + 19 + 19 + 15 = 102 bytes for every argument valuation. -/
theorem build_wash_composite_command_length (pt : EL406PlateType) (a : Steps.WashBuildArgs) :
    (Steps.build_wash_composite_command pt a).length = 102 := by
  simp [Steps.build_wash_composite_command, u8, u16, i8, i16, List.length_append]

/-- C9: for every accepted manifold wash invocation (every plate type
and parameter set on which `manifold_wash` returns a sent step rather
than a validation error), the timeout handed to the send call equals
`cycles * 60 + shake_duration + soak_duration + 120`. -/
theorem wash_timeout_formula (pt : EL406PlateType) (p : Steps.WashParams)
    (r : Steps.SentStep) (h : Steps.manifold_wash pt p = .ok r) :
    r.timeout = ((p.cycles * 60 + p.shake_duration + p.soak_duration + 120 : Int) : ℚ) := by
  simp only [Steps.manifold_wash] at h
  cases hs : Steps.sectors_to_mask p.sectors with
  | error e =>
    rw [hs, except_error_bind] at h
    exact Except.noConfusion h
  | ok sector_mask =>
    rw [hs, except_ok_bind] at h
    cases hv : Steps.validate_wash_params pt p (pyRound (p.aspirate_delay * 1000))
        (pyRound (p.final_aspirate_delay * 1000)) sector_mask with
    | error e =>
      rw [hv, except_error_bind] at h
      exact Except.noConfusion h
    | ok resolved =>
      rw [hv, except_ok_bind] at h
      simp only [pure, Except.pure, Except.ok.injEq] at h
      rw [← h]

/-- C10: for every parameter valuation accepted by the manifold wash
validation, the payload built by `_build_wash_composite_command` is
exactly 102 bytes, so the builder's internal length assertion is
unreachable under the validation precondition. -/
theorem wash_payload_length (pt : EL406PlateType) (p : Steps.WashParams)
    (r : Steps.SentStep) (h : Steps.manifold_wash pt p = .ok r) :
    r.payload.length = 102 := by
  simp only [Steps.manifold_wash] at h
  cases hs : Steps.sectors_to_mask p.sectors with
  | error e =>
    rw [hs, except_error_bind] at h
    exact Except.noConfusion h
  | ok sector_mask =>
    rw [hs, except_ok_bind] at h
    cases hv : Steps.validate_wash_params pt p (pyRound (p.aspirate_delay * 1000))
        (pyRound (p.final_aspirate_delay * 1000)) sector_mask with
    | error e =>
      rw [hv, except_error_bind] at h
      exact Except.noConfusion h
    | ok resolved =>
      rw [hv, except_ok_bind] at h
      simp only [pure, Except.pure, Except.ok.injEq] at h
      rw [← h]
      exact build_wash_composite_command_length pt _


/-- The all-defaults 96-well wash invocation passes validation. -/
theorem manifold_wash_default_ok :
    (Steps.manifold_wash EL406PlateType.PLATE_96_WELL {}).isOk = true := by
  have h0 : pyRound ((0 : ℚ) * 1000) = 0 := by norm_num [pyRound, rat_floor_eq_floor]
  have hsec : Steps.sectors_to_mask none = .ok 15 := rfl
  have hval : Steps.validate_wash_params EL406PlateType.PLATE_96_WELL {} 0 0 15
      = .ok (100, 121, 29, 29, 29) := by decide
  simp only [Steps.manifold_wash, h0, hsec, except_ok_bind, hval]
  rfl

/-- Witness for C9: the all-defaults 96-well wash (3 cycles, no shake,
no soak) is sent with timeout `3 * 60 + 0 + 0 + 120 = 300` seconds. -/
theorem wash_timeout_formula_witness :
    (Steps.manifold_wash EL406PlateType.PLATE_96_WELL {}).map Steps.SentStep.timeout
      = .ok 300 := by
  cases hr : Steps.manifold_wash EL406PlateType.PLATE_96_WELL {} with
  | error e =>
    have hok := manifold_wash_default_ok
    rw [hr] at hok
    exact Bool.noConfusion hok
  | ok r =>
    have ht := wash_timeout_formula EL406PlateType.PLATE_96_WELL {} r hr
    simp only [Except.map, ht, Except.ok.injEq]
    norm_num

/-- Witness for C10: the all-defaults 96-well wash payload is 102
bytes long. -/
theorem wash_payload_length_witness :
    (Steps.manifold_wash EL406PlateType.PLATE_96_WELL {}).map
        (fun r => r.payload.length) = .ok 102 := by
  cases hr : Steps.manifold_wash EL406PlateType.PLATE_96_WELL {} with
  | error e =>
    have hok := manifold_wash_default_ok
    rw [hr] at hok
    exact Bool.noConfusion hok
  | ok r =>
    have hl := wash_payload_length EL406PlateType.PLATE_96_WELL {} r hr
    simp only [Except.map, hl, Except.ok.injEq]


end EL406
